import Mathlib

/-!
Verification of the go-tunnel repository (github.com/arunsworld/go-tunnel).

The definitions below are a shallow embedding of the Go source.  Network
effects (dialing the SSH control connection, binding listeners, dialing
destinations, probing reachability) are modelled by explicit oracles passed
as function arguments; the control flow of each embedded function follows
the cited Go source line by line.
-/

namespace GoTunnel

/-- Logger implementations, from the tunnel package (part_001 lines 40-48):
an empty (no-op) logger and a stdout logger. -/
inductive Logger where
  | emptyLogger
  | stdoutLogger
deriving DecidableEq, Repr

/-- Forwarder, from part_001 lines 30-33: a port forward definition. -/
structure Forwarder where
  port : Int
  destination : String
deriving DecidableEq, Repr

/-- Spec, from part_001 lines 19-27: the ssh tunnel specification.
`Auth` members are opaque to the fabric and modelled as strings;
`Logger = none` models a nil Logger field; `ForwardTimeout` is in
nanoseconds (Go `time.Duration`), 0 meaning unset. -/
structure Spec where
  Host : String
  User : String
  Auth : List String
  Forward : List Forwarder
  Reverse : List Forwarder
  Logger : Option Logger
  ForwardTimeout : Int
deriving DecidableEq, Repr

/-- Forward, from part_001 lines 178-183: constructs a Forwarder from its
port and destination, with no validation of either. -/
def Forward (port : Int) (destination : String) : Forwarder :=
  { port := port, destination := destination }

/-- listenOnNetworkingDevice, part_001 lines 200-207: attempts to bind
`localhost:port`; returns none (Go nil) when the bind fails.  `bindOK` is
the oracle saying which ports the OS lets us bind. -/
def listenOnNetworkingDevice (bindOK : Int → Bool) (port : Int) : Option Int :=
  if bindOK port then some port else none

/-- Observable state when ExecuteAndBlock's startup phase finishes
(either returning an error or reaching `close(ok)` at line 123):
which listeners are open, whether the control connection is open,
whether readiness fired, and the returned error. -/
structure StartupResult where
  controlOpen : Bool
  localListeners : List Int
  remoteListeners : List Int
  readinessFired : Bool
  err : Option String
deriving DecidableEq, Repr

/-- The forward-rule loop of ExecuteAndBlock, part_001 lines 100-108:
opens a listener per rule, accumulating them; on the first bind failure it
stops with failure (the Go code then closes the control connection and
returns, leaving `opened` untouched).  Returns the opened listeners and
whether the loop completed. -/
def forwardLoop (bindOK : Int → Bool) : List Forwarder → List Int → List Int × Bool
  | [], opened => (opened, true)
  | f :: fs, opened =>
    match listenOnNetworkingDevice bindOK f.port with
    | none => (opened, false)
    | some l => forwardLoop bindOK fs (opened ++ [l])

/-- The reverse-rule loop of ExecuteAndBlock, part_001 lines 110-117:
a remote bind failure merely skips the rule (continue). -/
def reverseLoop (bindOK : Int → Bool) : List Forwarder → List Int
  | [] => []
  | f :: fs =>
    match listenOnNetworkingDevice bindOK f.port with
    | none => reverseLoop bindOK fs
    | some l => l :: reverseLoop bindOK fs

/-- Startup phase of ExecuteAndBlock, part_001 lines 85-123: dial the
control connection (returning its error on failure); run the forward loop
(on a bind failure: close the control connection, return an error, with the
already-opened listeners left open because their accept goroutines keep
running); run the reverse loop; then `close(ok)` fires readiness. -/
def executeAndBlockStartup (dialControlOK : Bool) (localBindOK remoteBindOK : Int → Bool)
    (spec : Spec) : StartupResult :=
  if dialControlOK then
    match forwardLoop localBindOK spec.Forward [] with
    | (opened, false) =>
      { controlOpen := false, localListeners := opened, remoteListeners := [],
        readinessFired := false, err := some "could not open local port... closing down" }
    | (opened, true) =>
      { controlOpen := true, localListeners := opened,
        remoteListeners := reverseLoop remoteBindOK spec.Reverse,
        readinessFired := true, err := none }
  else
    { controlOpen := false, localListeners := [], remoteListeners := [],
      readinessFired := false, err := some "ssh dial failed" }

theorem forwardLoop_eq (bindOK : Int → Bool) (rules : List Forwarder) (acc : List Int) :
    forwardLoop bindOK rules acc =
      (acc ++ (rules.takeWhile (fun f => bindOK f.port)).map (fun f => f.port),
        rules.all (fun f => bindOK f.port)) := by
  induction rules generalizing acc with
  | nil => simp [forwardLoop]
  | cons f fs ih =>
    by_cases h : bindOK f.port = true
    · simp [forwardLoop, listenOnNetworkingDevice, h, ih, List.takeWhile_cons, List.all_cons]
    · simp only [Bool.not_eq_true] at h
      simp [forwardLoop, listenOnNetworkingDevice, h, List.takeWhile_cons, List.all_cons]

/-- Claim C1 counterexample: with two forward rules of which only the first
port binds, ExecuteAndBlock returns an error and closes the control
connection, but the first listener remains open — startup is NOT
all-or-nothing: neither disjunct of the claim holds. -/
theorem executeAndBlock_not_all_or_nothing :
    ¬ (((executeAndBlockStartup true (fun p => p == 1) (fun _ => false)
          { Host := "h", User := "u", Auth := [], Forward := [Forward 1 "a", Forward 2 "b"],
            Reverse := [], Logger := none, ForwardTimeout := 0 }).err = none ∧
        (executeAndBlockStartup true (fun p => p == 1) (fun _ => false)
          { Host := "h", User := "u", Auth := [], Forward := [Forward 1 "a", Forward 2 "b"],
            Reverse := [], Logger := none, ForwardTimeout := 0 }).localListeners.length = 2 ∧
        (executeAndBlockStartup true (fun p => p == 1) (fun _ => false)
          { Host := "h", User := "u", Auth := [], Forward := [Forward 1 "a", Forward 2 "b"],
            Reverse := [], Logger := none, ForwardTimeout := 0 }).readinessFired = true) ∨
       ((executeAndBlockStartup true (fun p => p == 1) (fun _ => false)
          { Host := "h", User := "u", Auth := [], Forward := [Forward 1 "a", Forward 2 "b"],
            Reverse := [], Logger := none, ForwardTimeout := 0 }).err ≠ none ∧
        (executeAndBlockStartup true (fun p => p == 1) (fun _ => false)
          { Host := "h", User := "u", Auth := [], Forward := [Forward 1 "a", Forward 2 "b"],
            Reverse := [], Logger := none, ForwardTimeout := 0 }).localListeners = [])) := by
  decide

/-- Claim C1 (amended): with the control connection dialed, ExecuteAndBlock
either opens one listener per forward rule and fires readiness (no error),
or, on the first bind failure, closes the control connection, does not fire
readiness and returns an error — but the listeners opened for the rules
before the failing one (the longest bindable initial segment of the rules)
remain open. -/
theorem executeAndBlockStartup_characterization (localBindOK remoteBindOK : Int → Bool)
    (spec : Spec) :
    (executeAndBlockStartup true localBindOK remoteBindOK spec).localListeners =
      (spec.Forward.takeWhile (fun f => localBindOK f.port)).map (fun f => f.port) ∧
    ((executeAndBlockStartup true localBindOK remoteBindOK spec).err = none ↔
      spec.Forward.all (fun f => localBindOK f.port) = true) ∧
    ((executeAndBlockStartup true localBindOK remoteBindOK spec).err = none →
      (executeAndBlockStartup true localBindOK remoteBindOK spec).localListeners.length =
        spec.Forward.length) ∧
    ((executeAndBlockStartup true localBindOK remoteBindOK spec).readinessFired =
      ((executeAndBlockStartup true localBindOK remoteBindOK spec).err == none)) ∧
    ((executeAndBlockStartup true localBindOK remoteBindOK spec).controlOpen =
      ((executeAndBlockStartup true localBindOK remoteBindOK spec).err == none)) := by
  have hfl := forwardLoop_eq localBindOK spec.Forward []
  by_cases hall : spec.Forward.all (fun f => localBindOK f.port) = true
  · have hrun : executeAndBlockStartup true localBindOK remoteBindOK spec =
        { controlOpen := true,
          localListeners :=
            (spec.Forward.takeWhile (fun f => localBindOK f.port)).map (fun f => f.port),
          remoteListeners := reverseLoop remoteBindOK spec.Reverse,
          readinessFired := true, err := none } := by
      simp [executeAndBlockStartup, hfl, hall]
    have htake : spec.Forward.takeWhile (fun f => localBindOK f.port) = spec.Forward :=
      List.takeWhile_eq_self_iff.mpr (fun x hx => List.all_eq_true.mp hall x hx)
    refine ⟨by rw [hrun], by rw [hrun]; simp [hall], ?_, by rw [hrun]; rfl, by rw [hrun]; rfl⟩
    intro _
    rw [hrun]
    simp [htake]
  · simp only [Bool.not_eq_true] at hall
    have hrun : executeAndBlockStartup true localBindOK remoteBindOK spec =
        { controlOpen := false,
          localListeners :=
            (spec.Forward.takeWhile (fun f => localBindOK f.port)).map (fun f => f.port),
          remoteListeners := [], readinessFired := false,
          err := some "could not open local port... closing down" } := by
      simp [executeAndBlockStartup, hfl, hall]
    refine ⟨by rw [hrun], by rw [hrun]; simp [hall], ?_, by rw [hrun]; rfl, by rw [hrun]; rfl⟩
    intro h
    rw [hrun] at h
    simp at h

/-- Network actions performed by Execute (part_001 lines 61-83), in
program order. -/
inductive NetEvent where
  | dialControl
  | bindLocal (port : Int)
  | closeControl
deriving DecidableEq, Repr

/-- Outcome of Execute: `configError` is what claim C4 says happens for a
bad rule; the code can actually only produce the other three. -/
inductive ExecOutcome where
  | configError (msg : String)
  | dialError
  | bindError
  | started
deriving DecidableEq, Repr

/-- The forward loop of Execute, part_001 lines 74-81: bind each rule's
port (a network action even when it fails); on a failed bind close the
control connection and return the bind error; no rule is ever inspected
for validity. -/
def executeForwardEvents (localBindOK : Int → Bool) :
    List Forwarder → List NetEvent × ExecOutcome
  | [] => ([], ExecOutcome.started)
  | f :: fs =>
    if localBindOK f.port then
      (NetEvent.bindLocal f.port :: (executeForwardEvents localBindOK fs).1,
        (executeForwardEvents localBindOK fs).2)
    else
      ([NetEvent.bindLocal f.port, NetEvent.closeControl], ExecOutcome.bindError)

/-- Execute, part_001 lines 61-83, as the sequence of network actions it
performs together with its outcome: it dials the control connection first
thing (after only the logger default), then runs the forward loop.  There
is no validation step anywhere. -/
def executeTrace (dialControlOK : Bool) (localBindOK : Int → Bool) (spec : Spec) :
    List NetEvent × ExecOutcome :=
  if dialControlOK then
    (NetEvent.dialControl :: (executeForwardEvents localBindOK spec.Forward).1,
      (executeForwardEvents localBindOK spec.Forward).2)
  else ([NetEvent.dialControl], ExecOutcome.dialError)

/-- A rule is invalid in the sense of claim C4: port outside the valid
TCP range or empty destination. -/
def ruleInvalid (f : Forwarder) : Bool :=
  decide (f.port ≤ 0) || decide (65535 < f.port) || decide (f.destination = "")

/-- Claim C4 counterexample: a rule with port 0 and empty destination is
invalid, yet Execute does not reject it: it dials the control connection (a
network action), binds the rule's port, and reports successful startup —
no configuration error, and network actions were performed on the rule's
behalf. -/
theorem execute_invalid_rule_not_rejected :
    ruleInvalid (Forward 0 "") = true ∧
    ¬ (∃ msg,
        (executeTrace true (fun _ => true)
          { Host := "h", User := "u", Auth := [], Forward := [Forward 0 ""],
            Reverse := [], Logger := none, ForwardTimeout := 0 }).2 =
          ExecOutcome.configError msg ∧
        (executeTrace true (fun _ => true)
          { Host := "h", User := "u", Auth := [], Forward := [Forward 0 ""],
            Reverse := [], Logger := none, ForwardTimeout := 0 }).1 = []) := by
  refine ⟨by decide, ?_⟩
  rintro ⟨msg, h1, -⟩
  have : (executeTrace true (fun _ => true)
      { Host := "h", User := "u", Auth := [], Forward := [Forward 0 ""],
        Reverse := [], Logger := none, ForwardTimeout := 0 }).2 = ExecOutcome.started := rfl
  rw [this] at h1
  cases h1

theorem executeForwardEvents_no_configError (localBindOK : Int → Bool)
    (rules : List Forwarder) (msg : String) :
    (executeForwardEvents localBindOK rules).2 ≠ ExecOutcome.configError msg := by
  induction rules with
  | nil => simp [executeForwardEvents]
  | cons f fs ih =>
    by_cases h : localBindOK f.port = true
    · simpa [executeForwardEvents, h] using ih
    · simp only [Bool.not_eq_true] at h
      simp [executeForwardEvents, h]

/-- Claim C4 (amended): Execute performs no rule validation at all.  For
every spec and every environment, its very first action is the network
dial of the control connection, and its outcome is never a configuration
error: an invalid port surfaces only as a bind failure after the control
dial, and an empty destination is not rejected at startup at all. -/
theorem execute_never_config_error (dialControlOK : Bool) (localBindOK : Int → Bool)
    (spec : Spec) :
    (executeTrace dialControlOK localBindOK spec).1.head? = some NetEvent.dialControl ∧
    ∀ msg, (executeTrace dialControlOK localBindOK spec).2 ≠ ExecOutcome.configError msg := by
  cases dialControlOK with
  | false => exact ⟨rfl, fun msg h => by cases h⟩
  | true =>
    exact ⟨rfl, fun msg => executeForwardEvents_no_configError localBindOK spec.Forward msg⟩

/-- Go `time.Second * 5` in nanoseconds, from part_001 line 96. -/
def fiveSeconds : Int := 5000000000

/-- The mutations Execute (part_001 lines 61-73) and ExecuteAndBlock
(part_001 lines 85-97) apply to the caller's Spec, in program order: a nil
Logger is replaced by the empty logger before the control dial; only after
a successful dial (the functions return the dial error otherwise, lines
66-69 and 90-93) is a zero ForwardTimeout set to 5 seconds.  No other
field is ever written. -/
def executeSpecMutation (dialControlOK : Bool) (spec : Spec) : Spec :=
  let s1 := if spec.Logger = none then { spec with Logger := some Logger.emptyLogger } else spec
  if dialControlOK then
    if s1.ForwardTimeout = 0 then { s1 with ForwardTimeout := fiveSeconds } else s1
  else s1

/-- Claim C10 counterexample: when the control-connection dial fails,
Execute and ExecuteAndBlock return before reaching the ForwardTimeout
default, so a zero ForwardTimeout stays zero (the Logger is still
normalized): the claim's unconditional "if ForwardTimeout is zero it is
set to 5 seconds" is false on this run. -/
theorem executeSpecMutation_dial_failure_skips_timeout :
    ¬ ((executeSpecMutation false
          { Host := "h", User := "u", Auth := [], Forward := [], Reverse := [],
            Logger := none, ForwardTimeout := 0 }).Logger = some Logger.emptyLogger ∧
       (executeSpecMutation false
          { Host := "h", User := "u", Auth := [], Forward := [], Reverse := [],
            Logger := none, ForwardTimeout := 0 }).ForwardTimeout = fiveSeconds) := by
  decide

/-- Claim C10 (amended): on every run, a nil Logger is replaced by the
no-op logger; a zero ForwardTimeout is set to 5 seconds exactly when the
control-connection dial succeeded (on a failed dial the function returns
early and the timeout is left untouched); and the Host, User, Auth,
Forward and Reverse fields are never changed. -/
theorem executeSpecMutation_frame (dialControlOK : Bool) (spec : Spec) :
    (executeSpecMutation dialControlOK spec).Host = spec.Host ∧
    (executeSpecMutation dialControlOK spec).User = spec.User ∧
    (executeSpecMutation dialControlOK spec).Auth = spec.Auth ∧
    (executeSpecMutation dialControlOK spec).Forward = spec.Forward ∧
    (executeSpecMutation dialControlOK spec).Reverse = spec.Reverse ∧
    (executeSpecMutation dialControlOK spec).Logger =
      (if spec.Logger = none then some Logger.emptyLogger else spec.Logger) ∧
    (executeSpecMutation dialControlOK spec).ForwardTimeout =
      (if dialControlOK then
        (if spec.ForwardTimeout = 0 then fiveSeconds else spec.ForwardTimeout)
      else spec.ForwardTimeout) := by
  cases dialControlOK <;>
    by_cases hl : spec.Logger = none <;>
    by_cases ht : spec.ForwardTimeout = 0 <;>
    simp [executeSpecMutation, hl, ht]

/-- ClientConfig, the fields of `ssh.ClientConfig` that getSSHConfig sets
(part_001 lines 162-171).  The host key callback takes the hostname, the
remote address and the server's public key and returns an error or none. -/
structure ClientConfig where
  User : String
  Auth : List String
  HostKeyCallback : String → String → String → Option String
  Timeout : Int

/-- getSSHConfig, part_001 lines 162-171: builds the client configuration
for the control connection; its HostKeyCallback ignores all three
arguments and returns nil. -/
def getSSHConfig (spec : Spec) : ClientConfig :=
  { User := spec.User, Auth := spec.Auth,
    HostKeyCallback := fun _hostname _remote _key => none,
    Timeout := spec.ForwardTimeout }

/-- Claim C9: for every spec, hostname, remote address and server public
key, the host key callback of the SSH client configuration built for the
control connection returns nil — every host key is accepted, so no server
identity verification is ever performed. -/
theorem getSSHConfig_accepts_any_host_key (spec : Spec)
    (hostname remote key : String) :
    (getSSHConfig spec).HostKeyCallback hostname remote key = none := rfl

/-- Result of the two historical Execute variants in src/tunnel.go:
which listeners are open, whether the control connection is open, the
returned error, and the destinations whose probe failed and which were
skipped (logged "not available. Not bothering with tunnel."). -/
structure ExecuteResult where
  controlOpen : Bool
  localListeners : List Int
  err : Option String
  skippedDestinations : List String
deriving DecidableEq, Repr

/-- The forward loop of the probe-skip Execute variant, src/tunnel.go
lines 64-74: a failed probe logs and skips the rule (continue), a failed
bind also skips the rule; neither fails the hop. -/
def executeProbeSkipLoop (probeOK : String → Bool) (bindOK : Int → Bool) :
    List Forwarder → List Int × List String
  | [] => ([], [])
  | f :: fs =>
    if probeOK f.destination then
      if bindOK f.port then
        (f.port :: (executeProbeSkipLoop probeOK bindOK fs).1,
          (executeProbeSkipLoop probeOK bindOK fs).2)
      else executeProbeSkipLoop probeOK bindOK fs
    else
      ((executeProbeSkipLoop probeOK bindOK fs).1,
        f.destination :: (executeProbeSkipLoop probeOK bindOK fs).2)

/-- The probe-skip Execute variant, src/tunnel.go lines 55-76: dial the
control connection, then run the skip loop; it never returns an error
after the dial succeeds. -/
def executeProbeSkip (dialControlOK : Bool) (probeOK : String → Bool)
    (bindOK : Int → Bool) (spec : Spec) : ExecuteResult :=
  if dialControlOK then
    { controlOpen := true,
      localListeners := (executeProbeSkipLoop probeOK bindOK spec.Forward).1,
      err := none,
      skippedDestinations := (executeProbeSkipLoop probeOK bindOK spec.Forward).2 }
  else
    { controlOpen := false, localListeners := [], err := some "ssh dial failed",
      skippedDestinations := [] }

/-- The forward loop of the probe-die Execute variant, src/tunnel.go lines
235-247: a failed probe closes the control connection and returns an error
("destination not available... closing down"); a failed bind likewise.
Listeners opened for earlier rules stay open. -/
def executeProbeDieLoop (probeOK : String → Bool) (bindOK : Int → Bool) :
    List Forwarder → List Int → ExecuteResult
  | [], opened =>
    { controlOpen := true, localListeners := opened, err := none,
      skippedDestinations := [] }
  | f :: fs, opened =>
    if probeOK f.destination then
      if bindOK f.port then executeProbeDieLoop probeOK bindOK fs (opened ++ [f.port])
      else
        { controlOpen := false, localListeners := opened,
          err := some "could not open local port... closing down",
          skippedDestinations := [] }
    else
      { controlOpen := false, localListeners := opened,
        err := some "destination not available... closing down",
        skippedDestinations := [] }

/-- The probe-die Execute variant, src/tunnel.go lines 222-250: dial the
control connection, then run the die loop. -/
def executeProbeDie (dialControlOK : Bool) (probeOK : String → Bool)
    (bindOK : Int → Bool) (spec : Spec) : ExecuteResult :=
  if dialControlOK then executeProbeDieLoop probeOK bindOK spec.Forward []
  else
    { controlOpen := false, localListeners := [], err := some "ssh dial failed",
      skippedDestinations := [] }

/-- Claim C5 counterexample: in the Execute variant at src/tunnel.go lines
235-247, a forward rule whose availability probe fails is a hard failure:
Execute closes the control connection and returns a startup error, refuting
"never a hard failure of the hop". -/
theorem probe_failure_is_hard_failure_in_die_variant :
    ¬ ((executeProbeDie true (fun _ => false) (fun _ => true)
          { Host := "h", User := "u", Auth := [], Forward := [Forward 1234 "db:5432"],
            Reverse := [], Logger := none, ForwardTimeout := 0 }).err = none ∧
       (executeProbeDie true (fun _ => false) (fun _ => true)
          { Host := "h", User := "u", Auth := [], Forward := [Forward 1234 "db:5432"],
            Reverse := [], Logger := none, ForwardTimeout := 0 }).controlOpen = true) := by
  decide

/-- Claim C5 (amended): the two Execute variants in src/tunnel.go treat a
failed probe differently.  In the variant at lines 64-74 the probe is
advisory: with the control connection dialed, startup never returns an
error, the control connection stays open, and a rule whose probe fails is
merely logged and skipped.  In the superseded variant at lines 235-247, a
failing probe on the first rule closes the control connection and returns
the error "destination not available... closing down". -/
theorem probe_failure_advisory_vs_die (probeOK : String → Bool) (bindOK : Int → Bool)
    (spec : Spec) (f : Forwarder) (fs : List Forwarder)
    (hfwd : spec.Forward = f :: fs) (hprobe : probeOK f.destination = false) :
    (executeProbeSkip true probeOK bindOK spec).err = none ∧
    (executeProbeSkip true probeOK bindOK spec).controlOpen = true ∧
    f.destination ∈ (executeProbeSkip true probeOK bindOK spec).skippedDestinations ∧
    (executeProbeDie true probeOK bindOK spec).err =
      some "destination not available... closing down" ∧
    (executeProbeDie true probeOK bindOK spec).controlOpen = false := by
  refine ⟨rfl, rfl, ?_, ?_, ?_⟩
  · simp [executeProbeSkip, hfwd, executeProbeSkipLoop, hprobe]
  · simp [executeProbeDie, hfwd, executeProbeDieLoop, hprobe]
  · simp [executeProbeDie, hfwd, executeProbeDieLoop, hprobe]

/-- Witness for the C5 amended theorem at a concrete input: one rule whose
destination's probe fails. -/
theorem probe_failure_advisory_vs_die_witness :
    (executeProbeSkip true (fun _ => false) (fun _ => true)
      { Host := "h", User := "u", Auth := [], Forward := [Forward 1234 "db:5432"],
        Reverse := [], Logger := none, ForwardTimeout := 0 }).err = none ∧
    (executeProbeSkip true (fun _ => false) (fun _ => true)
      { Host := "h", User := "u", Auth := [], Forward := [Forward 1234 "db:5432"],
        Reverse := [], Logger := none, ForwardTimeout := 0 }).controlOpen = true ∧
    (Forward 1234 "db:5432").destination ∈ (executeProbeSkip true (fun _ => false) (fun _ => true)
      { Host := "h", User := "u", Auth := [], Forward := [Forward 1234 "db:5432"],
        Reverse := [], Logger := none, ForwardTimeout := 0 }).skippedDestinations ∧
    (executeProbeDie true (fun _ => false) (fun _ => true)
      { Host := "h", User := "u", Auth := [], Forward := [Forward 1234 "db:5432"],
        Reverse := [], Logger := none, ForwardTimeout := 0 }).err =
      some "destination not available... closing down" ∧
    (executeProbeDie true (fun _ => false) (fun _ => true)
      { Host := "h", User := "u", Auth := [], Forward := [Forward 1234 "db:5432"],
        Reverse := [], Logger := none, ForwardTimeout := 0 }).controlOpen = false :=
  probe_failure_advisory_vs_die (fun _ => false) (fun _ => true)
    { Host := "h", User := "u", Auth := [], Forward := [Forward 1234 "db:5432"],
      Reverse := [], Logger := none, ForwardTimeout := 0 }
    (Forward 1234 "db:5432") [] rfl rfl

/-- Effect of one call of tunnel (part_001 lines 227-245) on the hop, up
to and including the dial to the rule's destination. -/
structure TunnelEffect where
  acceptedConnClosed : Bool
  instanceStarted : Bool
  dialFailureLogged : Bool
  controlClosed : Bool
  hopErr : Option String
deriving DecidableEq, Repr

/-- The dial phase of tunnel, part_001 lines 227-233: when the dial to the
destination fails, log the failure, close the accepted local connection and
return — touching nothing else of the hop; when it succeeds, an instance is
started.  `dialSucceeds` is the outcome of this attempt's dial. -/
def tunnelDialPhase (dialSucceeds : Bool) : TunnelEffect :=
  if dialSucceeds then
    { acceptedConnClosed := false, instanceStarted := true, dialFailureLogged := false,
      controlClosed := false, hopErr := none }
  else
    { acceptedConnClosed := true, instanceStarted := false, dialFailureLogged := true,
      controlClosed := false, hopErr := none }

/-- The accept loop of acceptNewConnectionAndTunnel, part_001 lines
209-225: every accepted connection is handed to tunnel in a fresh
goroutine, and the loop immediately continues to the next Accept —
regardless of what the dial of any earlier connection did.  `conns` is the
sequence of ids of connections the listener accepts, `dialOK c` the
outcome of the destination dial made for connection `c`. -/
def acceptLoop (dialOK : Nat → Bool) : List Nat → List (Nat × TunnelEffect)
  | [] => []
  | c :: cs => (c, tunnelDialPhase (dialOK c)) :: acceptLoop dialOK cs

/-- Claim C6: every accepted connection is processed, and one whose dial
fails is closed, the failure logged, the control connection untouched and
no hop error raised; the loop's handling of each connection is a function
of that connection alone, so connections after a failed one are still
accepted and forwarded exactly as they would otherwise be. -/
theorem acceptLoop_dial_failure_contained (dialOK : Nat → Bool) (conns : List Nat) :
    acceptLoop dialOK conns = conns.map (fun c => (c, tunnelDialPhase (dialOK c))) ∧
    tunnelDialPhase false =
      { acceptedConnClosed := true, instanceStarted := false, dialFailureLogged := true,
        controlClosed := false, hopErr := none } := by
  refine ⟨?_, rfl⟩
  induction conns with
  | nil => rfl
  | cons c cs ih => simp [acceptLoop, ih]

/-- Observable outcome of one call of isDestinationAvailable
(src/tunnel.go lines 304-322): the boolean it returns, the time at which
it returns control to the caller, whether the test connection (when the
dial produced one) was closed, and whether any late dial result was
surfaced to the caller. -/
structure ProbeOutcome where
  result : Bool
  returnTime : Nat
  testConnClosed : Bool
  lateResultSurfaced : Bool
deriving DecidableEq, Repr

/-- isDestinationAvailable, src/tunnel.go lines 304-322.  `dial` describes
the behaviour of `serverConnection.Dial` in the probe goroutine (lines
306-314): `none` means it never resolves, `some (t, ok)` that it resolves
at time `t` with success `ok`.  The goroutine closes the test connection
(line 312) before sending on `done`, so the test connection is closed no
matter when the dial resolves.  The caller's select (lines 316-321)
returns the sent value if it arrives before the timeout, and returns false
at the timeout otherwise; a result arriving at or after the timeout is
never delivered (the goroutine blocks forever on the unbuffered channel).
A tie (t = timeout) is resolved here in favour of the timeout branch. -/
def isDestinationAvailable (dial : Option (Nat × Bool)) (timeout : Nat) : ProbeOutcome :=
  match dial with
  | none =>
    { result := false, returnTime := timeout, testConnClosed := true,
      lateResultSurfaced := false }
  | some (t, ok) =>
    if t < timeout then
      { result := ok, returnTime := t, testConnClosed := true,
        lateResultSurfaced := false }
    else
      { result := false, returnTime := timeout, testConnClosed := true,
        lateResultSurfaced := false }

/-- Claim C7: whenever the dial does not resolve before the timeout —
including never resolving at all — the probe returns false, returns
control to the caller at the timeout (hence within timeout + epsilon), the
test connection of a late success is closed, and the late result is never
surfaced to the caller. -/
theorem isDestinationAvailable_timeout (dial : Option (Nat × Bool)) (timeout : Nat)
    (h : ∀ t ok, dial = some (t, ok) → timeout ≤ t) :
    isDestinationAvailable dial timeout =
      { result := false, returnTime := timeout, testConnClosed := true,
        lateResultSurfaced := false } ∧
    (isDestinationAvailable dial timeout).returnTime ≤ timeout := by
  match dial with
  | none => exact ⟨rfl, Nat.le_refl timeout⟩
  | some (t, ok) =>
    have ht : timeout ≤ t := h t ok rfl
    have hnot : ¬ t < timeout := Nat.not_lt.mpr ht
    refine ⟨?_, ?_⟩ <;> simp [isDestinationAvailable, hnot]

/-- Witness for C7 at a concrete input: a dial that would succeed at time
10, probed with timeout 7, yields false at time 7 with the late connection
closed and nothing surfaced. -/
theorem isDestinationAvailable_timeout_witness :
    isDestinationAvailable (some (10, true)) 7 =
      { result := false, returnTime := 7, testConnClosed := true,
        lateResultSurfaced := false } ∧
    (isDestinationAvailable (some (10, true)) 7).returnTime ≤ 7 :=
  isDestinationAvailable_timeout (some (10, true)) 7
    (fun t ok hc => by cases hc; decide)

/-- A named secret from the tunnel CLI's configuration, part_002 lines
22-25: the secret's name and the environment variable to resolve it from. -/
structure Secret where
  Name : String
  Env : String
deriving DecidableEq, Repr

/-- The prompt branch of newSecretVault, part_002 lines 61-70:
`promptResult` models `term.ReadPassword`, with `.error e` a read error
and `.ok v` the (possibly empty) value typed; an empty value is a
configuration error. -/
def promptPhase (s : Secret) (promptResult : Except String String) : Except String String :=
  match promptResult with
  | Except.error e =>
    Except.error ("error reading secret from prompt for " ++ s.Name ++ ": " ++ e)
  | Except.ok v =>
    if v = "" then Except.error ("error - no value provided for secret " ++ s.Name)
    else Except.ok v

/-- newSecretVault, part_002 lines 51-71: a secret with no name is a
configuration error; otherwise, if an environment variable is configured
and holds a non-empty value, that value is the secret; otherwise the user
is prompted.  `getenv` models `os.Getenv`. -/
def newSecretVault (s : Secret) (getenv : String → String)
    (promptResult : Except String String) : Except String String :=
  if s.Name = "" then Except.error "secret specified without a name"
  else if s.Env ≠ "" then
    (if getenv s.Env ≠ "" then Except.ok (getenv s.Env) else promptPhase s promptResult)
  else promptPhase s promptResult

/-- Claim C8: for every named secret (non-empty name), resolution uses the
configured environment variable's value when it is non-empty; otherwise it
falls back to the prompt and uses a non-empty prompted value; and it
returns an error exactly when neither the environment variable nor the
prompt yields a non-empty value. -/
theorem newSecretVault_resolution (s : Secret) (getenv : String → String)
    (promptResult : Except String String) (h : s.Name ≠ "") :
    (s.Env ≠ "" → getenv s.Env ≠ "" →
      newSecretVault s getenv promptResult = Except.ok (getenv s.Env)) ∧
    ((s.Env = "" ∨ getenv s.Env = "") → ∀ v, promptResult = Except.ok v → v ≠ "" →
      newSecretVault s getenv promptResult = Except.ok v) ∧
    ((∃ e, newSecretVault s getenv promptResult = Except.error e) ↔
      ((s.Env = "" ∨ getenv s.Env = "") ∧ ∀ v, promptResult = Except.ok v → v = "")) := by
  refine ⟨?_, ?_, ?_⟩
  · intro henv hval
    simp [newSecretVault, h, henv, hval]
  · intro henv v hv hvne
    subst hv
    rcases henv with henv | henv
    · simp [newSecretVault, h, henv, promptPhase, hvne]
    · by_cases he : s.Env = ""
      · simp [newSecretVault, h, he, promptPhase, hvne]
      · simp [newSecretVault, h, he, henv, promptPhase, hvne]
  · constructor
    · rintro ⟨e, he⟩
      by_cases henv : s.Env = ""
      · refine ⟨Or.inl henv, ?_⟩
        intro v hv
        subst hv
        by_cases hv0 : v = ""
        · exact hv0
        · simp [newSecretVault, h, henv, promptPhase, hv0] at he
      · by_cases hval : getenv s.Env = ""
        · refine ⟨Or.inr hval, ?_⟩
          intro v hv
          subst hv
          by_cases hv0 : v = ""
          · exact hv0
          · simp [newSecretVault, h, henv, hval, promptPhase, hv0] at he
        · simp [newSecretVault, h, henv, hval] at he
    · rintro ⟨henv, hprompt⟩
      match hpr : promptResult with
      | Except.error e =>
        refine ⟨"error reading secret from prompt for " ++ s.Name ++ ": " ++ e, ?_⟩
        rcases henv with he | he
        · simp [newSecretVault, h, he, promptPhase]
        · by_cases he2 : s.Env = ""
          · simp [newSecretVault, h, he2, promptPhase]
          · simp [newSecretVault, h, he2, he, promptPhase]
      | Except.ok v =>
        have hv : v = "" := hprompt v rfl
        subst hv
        refine ⟨"error - no value provided for secret " ++ s.Name, ?_⟩
        rcases henv with he | he
        · simp [newSecretVault, h, he, promptPhase]
        · by_cases he2 : s.Env = ""
          · simp [newSecretVault, h, he2, promptPhase]
          · simp [newSecretVault, h, he2, he, promptPhase]

/-- Witness for C8 at concrete inputs: a named secret whose environment
variable is set uses the environment value; with the variable unset and a
non-empty prompted value, the prompt value is used; with both empty, an
error is returned. -/
theorem newSecretVault_resolution_witness :
    ((⟨"db", "DB_PWD"⟩ : Secret).Env ≠ "" → (fun e => if e = "DB_PWD" then "s3cret" else "") (⟨"db", "DB_PWD"⟩ : Secret).Env ≠ "" →
      newSecretVault ⟨"db", "DB_PWD"⟩ (fun e => if e = "DB_PWD" then "s3cret" else "")
        (Except.ok "typed") = Except.ok ((fun e => if e = "DB_PWD" then "s3cret" else "") (⟨"db", "DB_PWD"⟩ : Secret).Env)) ∧
    (((⟨"db", "DB_PWD"⟩ : Secret).Env = "" ∨ (fun e => if e = "DB_PWD" then "s3cret" else "") (⟨"db", "DB_PWD"⟩ : Secret).Env = "") →
      ∀ v, (Except.ok "typed" : Except String String) = Except.ok v → v ≠ "" →
      newSecretVault ⟨"db", "DB_PWD"⟩ (fun e => if e = "DB_PWD" then "s3cret" else "")
        (Except.ok "typed") = Except.ok v) ∧
    ((∃ e, newSecretVault ⟨"db", "DB_PWD"⟩ (fun e => if e = "DB_PWD" then "s3cret" else "")
        (Except.ok "typed") = Except.error e) ↔
      (((⟨"db", "DB_PWD"⟩ : Secret).Env = "" ∨ (fun e => if e = "DB_PWD" then "s3cret" else "") (⟨"db", "DB_PWD"⟩ : Secret).Env = "") ∧
        ∀ v, (Except.ok "typed" : Except String String) = Except.ok v → v = "")) :=
  newSecretVault_resolution ⟨"db", "DB_PWD"⟩ (fun e => if e = "DB_PWD" then "s3cret" else "")
    (Except.ok "typed") (by decide)

/-- Joint state of one parent hop running ExecuteAndBlock (part_001 lines
85-123) and the orchestrator goroutine of handleConnectionTo (part_002
lines 252-274) that starts the hop's children.  `bound` counts the
listeners the forward loop has opened, `readiness` whether `close(ok)`
(part_001 line 123) has run, `finishedEarly` whether ExecuteAndBlock
returned an error before reaching `close(ok)` (observed through the
`finished` channel of part_002), and `childStarted` whether a child's
control connection has been dialed (jobForConfig → handleConnectionTo →
ExecuteAndBlock → ssh.Dial). -/
structure HopSys where
  nRules : Nat
  bound : Nat
  readiness : Bool
  finishedEarly : Bool
  childStarted : Bool
deriving DecidableEq, Repr

/-- Before any step, nothing has happened. -/
def HopSys.start (n : Nat) : HopSys :=
  { nRules := n, bound := 0, readiness := false, finishedEarly := false,
    childStarted := false }

/-- The atomic steps of the parent hop and its orchestrator, each guarded
exactly as the control flow of the source allows it:
`bind` is one iteration of the forward loop (lines 100-108), possible only
before `close(ok)`; `fail` is a dial or bind error returning before
`close(ok)` (lines 90-93 and 102-105); `ready` is `close(ok)` at line 123,
reached only when the loop has opened every listener; `startChild` is the
orchestrator starting the children (part_002 lines 262-272), possible only
after receiving from the `ok` channel, i.e. after `close(ok)`. -/
inductive HopStep : HopSys → HopSys → Prop
  | bind (s : HopSys) : s.bound < s.nRules → s.readiness = false → s.finishedEarly = false →
      HopStep s { s with bound := s.bound + 1 }
  | fail (s : HopSys) : s.readiness = false → s.finishedEarly = false →
      HopStep s { s with finishedEarly := true }
  | ready (s : HopSys) : s.bound = s.nRules → s.readiness = false → s.finishedEarly = false →
      HopStep s { s with readiness := true }
  | startChild (s : HopSys) : s.readiness = true →
      HopStep s { s with childStarted := true }

/-- States reachable from the initial state by the steps above. -/
inductive HopReachable (n : Nat) : HopSys → Prop
  | start : HopReachable n (HopSys.start n)
  | step {s t : HopSys} : HopReachable n s → HopStep s t → HopReachable n t

/-- Claim C2: in every reachable state of a hop and its orchestrator, if a
child's control connection has been dialed then the parent's readiness
signal has fired, and readiness fired only after every one of the parent's
listeners was open — so a child hop's control connection is never dialed
before the parent's readiness, which itself requires all parent listeners
open. -/
theorem child_dial_after_parent_readiness {n : Nat} {s : HopSys}
    (h : HopReachable n s) :
    s.nRules = n ∧ s.bound ≤ n ∧
    (s.readiness = true → s.bound = n) ∧
    (s.childStarted = true → s.readiness = true ∧ s.bound = n) := by
  induction h with
  | start =>
    refine ⟨rfl, Nat.zero_le n, ?_, ?_⟩
    · intro hx
      exact Bool.noConfusion hx
    · intro hx
      exact Bool.noConfusion hx
  | @step u t hreach hstep ih =>
    obtain ⟨ihn, ihb, ihr, ihc⟩ := ih
    cases hstep with
    | bind hlt hr hf =>
      refine ⟨ihn, Nat.succ_le_of_lt (ihn ▸ hlt), ?_, ?_⟩
      · intro hcontra
        have hc2 : u.readiness = true := hcontra
        rw [hr] at hc2
        exact Bool.noConfusion hc2
      · intro hcs
        have hc2 : u.childStarted = true := hcs
        have hrd := (ihc hc2).1
        rw [hr] at hrd
        exact Bool.noConfusion hrd
    | fail hr hf =>
      refine ⟨ihn, ihb, ?_, ?_⟩
      · intro hcontra
        have hc2 : u.readiness = true := hcontra
        rw [hr] at hc2
        exact Bool.noConfusion hc2
      · intro hcs
        have hc2 : u.childStarted = true := hcs
        have hrd := (ihc hc2).1
        rw [hr] at hrd
        exact Bool.noConfusion hrd
    | ready hbn hr hf =>
      refine ⟨ihn, ihb, ?_, ?_⟩
      · intro _
        exact ihn ▸ hbn
      · intro _
        exact ⟨rfl, ihn ▸ hbn⟩
    | startChild hrd =>
      refine ⟨ihn, ihb, ?_, ?_⟩
      · intro _
        exact ihr hrd
      · intro _
        exact ⟨hrd, ihr hrd⟩

/-- Witness for C2: a concrete run of a hop with one rule — bind the
listener, fire readiness, start the child — reaches a state with the child
started, where the theorem yields that readiness fired and the listener
was open. -/
theorem child_dial_after_parent_readiness_witness :
    (⟨1, 1, true, false, true⟩ : HopSys).nRules = 1 ∧
    (⟨1, 1, true, false, true⟩ : HopSys).bound ≤ 1 ∧
    ((⟨1, 1, true, false, true⟩ : HopSys).readiness = true →
      (⟨1, 1, true, false, true⟩ : HopSys).bound = 1) ∧
    ((⟨1, 1, true, false, true⟩ : HopSys).childStarted = true →
      (⟨1, 1, true, false, true⟩ : HopSys).readiness = true ∧
      (⟨1, 1, true, false, true⟩ : HopSys).bound = 1) :=
  child_dial_after_parent_readiness
    (HopReachable.step
      (HopReachable.step
        (HopReachable.step (HopReachable.start)
          (HopStep.bind (HopSys.start 1) (by decide) rfl rfl))
        (HopStep.ready (⟨1, 1, false, false, false⟩ : HopSys) rfl rfl rfl))
      (HopStep.startChild (⟨1, 1, true, false, false⟩ : HopSys) rfl))

/-- Teardown actions of the cancellation branch of ExecuteAndBlock,
part_001 lines 124-138. -/
inductive TEvent where
  | waitInstances
  | closeListener (id : Nat)
  | closeControl
deriving DecidableEq, BEq, Repr

/-- The cancellation branch of ExecuteAndBlock, part_001 lines 124-138, as
the sequence of teardown actions it performs on ctx.Done(): `wg.Wait()`
(line 127), then close every local listener (129-131), then every remote
listener (133-135), then close the control connection (137). -/
def teardownOnCancel (localListeners remoteListeners : List Nat) : List TEvent :=
  TEvent.waitInstances ::
    (localListeners.map TEvent.closeListener ++ remoteListeners.map TEvent.closeListener
      ++ [TEvent.closeControl])

/-- Index of the first occurrence of an event in a teardown trace. -/
def eventIdx (tr : List TEvent) (e : TEvent) : Option Nat :=
  tr.findIdx? (fun x => x == e)

/-- Whether event `a` occurs in the trace strictly before event `b`. -/
def beforeB (tr : List TEvent) (a b : TEvent) : Bool :=
  match eventIdx tr a, eventIdx tr b with
  | some i, some j => i < j
  | _, _ => false

/-- Claim C3 counterexample: the accept loop of
acceptNewConnectionAndTunnel (part_001 lines 212-224) has no cancellation
check around `listener.Accept()`; during teardown it stops accepting only
when its listener's close makes Accept fail.  For a hop with one local
listener, the instance wait (`wg.Wait()`) comes before that listener's
close in the teardown trace, not after — so accepting new connections is
NOT stopped before waiting for live instances, refuting the claimed order
(1) stop accepting, (2) wait for instances. -/
theorem teardown_wait_precedes_accept_stop :
    beforeB (teardownOnCancel [1] []) TEvent.waitInstances (TEvent.closeListener 1) = true ∧
    beforeB (teardownOnCancel [1] []) (TEvent.closeListener 1) TEvent.waitInstances = false := by
  decide

/-- Resource state of a hop: its open listeners, whether its control
connection is open, and how many registered tunnel instances are still
running. -/
structure Resources where
  listeners : List Nat
  controlOpen : Bool
  instances : Nat
deriving DecidableEq, Repr

/-- Effect of one teardown action on the hop's resources: the wait ends
with all registered instances finished; a listener close removes that
listener; the control close closes the control connection. -/
def applyTEvent (r : Resources) : TEvent → Resources
  | TEvent.waitInstances => { r with instances := 0 }
  | TEvent.closeListener id => { r with listeners := r.listeners.erase id }
  | TEvent.closeControl => { r with controlOpen := false }

/-- Replay of a teardown trace over the hop's resources. -/
def runTeardown (r : Resources) (tr : List TEvent) : Resources :=
  tr.foldl applyTEvent r

theorem runTeardown_closeListeners (ys : List Nat) (r : Resources) :
    runTeardown r (ys.map TEvent.closeListener) =
      { r with listeners := ys.foldl (fun l a => l.erase a) r.listeners } := by
  induction ys generalizing r with
  | nil => rfl
  | cons y t ih =>
    show runTeardown (applyTEvent r (TEvent.closeListener y)) (t.map TEvent.closeListener) = _
    rw [ih]
    rfl

theorem foldl_erase_self (xs : List Nat) :
    xs.foldl (fun l a => l.erase a) xs = [] := by
  induction xs with
  | nil => rfl
  | cons x t ih =>
    show t.foldl (fun l a => l.erase a) ((x :: t).erase x) = []
    rw [List.erase_cons_head]
    exact ih

/-- Claim C3 (amended): on cancellation the teardown of a hop proceeds in
the order (1) wait for all registered tunnel instances to finish, (2)
close every listener — which is also what stops the accept loops — and (3)
close the control connection; the trace is exactly that sequence, and
replaying it from any starting resource state whose open listeners are the
hop's listeners leaves zero open listeners, a closed control connection
and zero running registered instances. -/
theorem teardownOnCancel_order_and_final (ls rs : List Nat) (k : Nat) :
    teardownOnCancel ls rs =
      TEvent.waitInstances ::
        ((ls ++ rs).map TEvent.closeListener ++ [TEvent.closeControl]) ∧
    runTeardown { listeners := ls ++ rs, controlOpen := true, instances := k }
        (teardownOnCancel ls rs) =
      { listeners := [], controlOpen := false, instances := 0 } := by
  have hmap : teardownOnCancel ls rs =
      TEvent.waitInstances ::
        ((ls ++ rs).map TEvent.closeListener ++ [TEvent.closeControl]) := by
    simp [teardownOnCancel, List.map_append, List.append_assoc]
  refine ⟨hmap, ?_⟩
  rw [hmap]
  show runTeardown
      (applyTEvent { listeners := ls ++ rs, controlOpen := true, instances := k }
        TEvent.waitInstances)
      ((ls ++ rs).map TEvent.closeListener ++ [TEvent.closeControl]) = _
  have h0 : applyTEvent { listeners := ls ++ rs, controlOpen := true, instances := k }
      TEvent.waitInstances =
      { listeners := ls ++ rs, controlOpen := true, instances := 0 } := rfl
  rw [h0, runTeardown, List.foldl_append]
  have h2 := runTeardown_closeListeners (ls ++ rs)
    { listeners := ls ++ rs, controlOpen := true, instances := 0 }
  rw [runTeardown] at h2
  rw [h2, foldl_erase_self]
  rfl

end GoTunnel
